import Mathlib

/-!
Verification development for the QCoDeSStreamlit dashboard, a shallow
embedding of src/main.py.

The module defines a schema initializer (init_database), a polling fetcher
(fetch_live_data, wrapped in a 300-second st.cache_data memoizer), a chart
dispatcher (create_plot) and an experiment loader (qcodes_integration).
Python-level failures (NameError, UnboundLocalError, ValueError, KeyError)
are modelled with an explicit error type and Except results.  Machine
integers of the database (row ids) are modelled as Int; SQLite tables and
the filesystem are modelled as association lists.

Note on the source: main.py line 69 reads the global DB_PATH, which is
bound nowhere in the module (line 41 binds the distinct QCODES_DB_PATH),
so the body of fetch_live_data cannot run past name resolution.  The
embedding keeps this faithfully: fetch_live_data resolves "DB_PATH"
against the table of module-level constants before touching a database.
-/

/-- Python runtime errors that the embedded code can raise. -/
inductive PyErr where
  | nameError (name : String)
  | unboundLocalError (name : String)
  | keyError (name : String)
  | valueError (msg : String)
deriving DecidableEq

/-- Path constant bound at main.py line 41. -/
def QCODES_DB_PATH : String :=
  "/Users/albert-mac/Code/GitHub/QCoDeSStreamlit/020-1Shankar_2024-09-15_01.db"

/-- Module-level string constants of main.py, as seen by Python global name
resolution.  The only path constant the module binds is QCODES_DB_PATH
(line 41); in particular the name DB_PATH used at line 69 is unbound. -/
def moduleConstants : String → Option String := fun name =>
  if name = "QCODES_DB_PATH" then some QCODES_DB_PATH else none

/-- Row of the runs table: id INTEGER PRIMARY KEY, timestamp DATETIME,
parameters TEXT, data BLOB.  Only the id takes part in any property below;
the remaining cells are carried opaquely as strings. -/
structure RunRow where
  id : Int
  timestamp : String
  parameters : String
  data : String
deriving DecidableEq

/-- Contents of the runs table of one SQLite database file.  Since id is an
INTEGER PRIMARY KEY it is the rowid, and SQLite stores rows in rowid order,
so the list is kept in storage order (ascending id for a well-formed file;
stated as a hypothesis where it matters). -/
structure RunsDb where
  runs : List RunRow
deriving DecidableEq

/-- Filesystem of SQLite database files addressed by path, for the polling
fetcher. -/
def FileSystemDbs : Type := String → Option RunsDb

/-- Result of the SQL query SELECT * FROM runs WHERE id GT last_index: a
plain table scan keeps storage order and keeps exactly the rows whose id
exceeds the bound. -/
def runQuery (db : RunsDb) (last_index : Int) : List RunRow :=
  db.runs.filter (fun r => last_index < r.id)

/-- Maximum of the id column of a nonempty result, as pandas max computes
it over the DataFrame column. -/
def idsMax : List RunRow → Int
  | [] => 0
  | r :: rs => rs.foldl (fun acc row => max acc row.id) r.id

/-- Embedding of fetch_live_data (main.py lines 62 to 75), without the
st.cache_data wrapper (modelled separately as cachedFetchLiveData).  The
body first resolves the global name DB_PATH; since the module never binds
it, the call raises NameError before connecting or querying.  The second
component of the result is the list of SQL query strings actually issued,
so the theorems can state that no query happens.  The some branch is the
embedding of the body as written (connect, read_sql, watermark update)
for the hypothetical case of the name resolving. -/
def fetch_live_data (dbs : FileSystemDbs) (last_index : Int) :
    Except PyErr (List RunRow × Int) × List String :=
  match moduleConstants "DB_PATH" with
  | none => (Except.error (PyErr.nameError "DB_PATH"), [])
  | some path =>
      let conn := (dbs path).getD ⟨[]⟩
      let query := "SELECT * FROM runs WHERE id > " ++ toString last_index
      let new_data := runQuery conn last_index
      (Except.ok
        (new_data, if new_data.isEmpty then last_index else idsMax new_data),
       [query])

/-- Body of fetch_live_data after name resolution (main.py lines 69 to 75
with the path already resolved to a concrete database): the behavior the
docstring of fetch_live_data describes. -/
def fetch_live_data_body (db : RunsDb) (last_index : Int) :
    List RunRow × Int :=
  let new_data := runQuery db last_index
  (new_data, if new_data.isEmpty then last_index else idsMax new_data)

/-- Sample database holding three pending runs with ids 1, 2, 3. -/
def pendingRunsDb : RunsDb :=
  ⟨[⟨1, "t1", "pa", "d1"⟩, ⟨2, "t2", "pb", "d2"⟩, ⟨3, "t3", "pc", "d3"⟩]⟩

/-- Filesystem whose database at the configured path holds the three
pending runs. -/
def dbsWithPending : FileSystemDbs := fun path =>
  if path = QCODES_DB_PATH then some pendingRunsDb else none

/-- Filesystem whose database at the configured path has an empty runs
table. -/
def dbsEmptyRuns : FileSystemDbs := fun path =>
  if path = QCODES_DB_PATH then some ⟨[]⟩ else none

/-- C2: fetch_live_data reads the path constant DB_PATH, which is never
defined in the module (the schema initializer uses the separately defined
QCODES_DB_PATH), so for every input last_index the call raises a NameError
before issuing any query: the result is the undefined-name error and the
empty list of issued queries, whatever the filesystem contents. -/
theorem fetch_live_data_name_error :
    moduleConstants "DB_PATH" = none ∧
    moduleConstants "QCODES_DB_PATH" = some QCODES_DB_PATH ∧
    ∀ (dbs : FileSystemDbs) (last_index : Int),
      fetch_live_data dbs last_index =
        (Except.error (PyErr.nameError "DB_PATH"), []) :=
  ⟨rfl, rfl, fun _ _ => rfl⟩

/-- C1: evaluation at the failing input.  The database at QCODES_DB_PATH
holds three rows with id above the watermark 0, so the claimed behavior
would return that batch in ascending id order; the call instead raises
NameError on the unbound DB_PATH and issues no query at all. -/
theorem fetch_live_data_crashes_despite_pending_rows :
    (runQuery pendingRunsDb 0).length = 3 ∧
    fetch_live_data dbsWithPending 0 =
      (Except.error (PyErr.nameError "DB_PATH"), []) :=
  ⟨rfl, rfl⟩

/-- C3: evaluation at the failing input.  With an empty runs table and
watermark 7 the claimed behavior is to return the empty batch with the
watermark 7 unchanged and no crash; the call instead raises NameError on
the unbound DB_PATH. -/
theorem fetch_live_data_crashes_on_empty_batch :
    runQuery ⟨[]⟩ 7 = [] ∧
    fetch_live_data dbsEmptyRuns 7 =
      (Except.error (PyErr.nameError "DB_PATH"), []) :=
  ⟨rfl, rfl⟩

/-- Support for C1: the query body keeps only rows whose id strictly
exceeds the watermark. -/
theorem fetch_body_only_newer (db : RunsDb) (w : Int) :
    ∀ r ∈ (fetch_live_data_body db w).1, w < r.id := by
  intro r hr
  have hr2 : r ∈ db.runs.filter (fun row => decide (w < row.id)) := hr
  rcases List.mem_filter.mp hr2 with ⟨-, h2⟩
  simpa using h2

/-- Support for C1: on a well-formed database file (rows stored in
ascending id order) the query body returns its batch in ascending id
order. -/
theorem fetch_body_sorted (db : RunsDb) (w : Int)
    (h : db.runs.Pairwise (fun a b => a.id < b.id)) :
    (fetch_live_data_body db w).1.Pairwise (fun a b => a.id < b.id) :=
  h.sublist (List.filter_sublist _)

/-- Support for C3: when the batch is empty the returned watermark is the
input watermark unchanged. -/
theorem fetch_body_empty_watermark (db : RunsDb) (w nw : Int)
    (hb : fetch_live_data_body db w = ([], nw)) : nw = w := by
  unfold fetch_live_data_body at hb
  simp only at hb
  injection hb with hb1 hb2
  rw [hb1] at hb2
  simpa using hb2.symm

/-- Auxiliary bound: a fold of max starting at a is at least a. -/
theorem le_foldlMax (l : List RunRow) (a : Int) :
    a ≤ l.foldl (fun acc row => max acc row.id) a := by
  induction l generalizing a with
  | nil => exact le_refl a
  | cons r rs ih => exact le_trans (le_max_left a r.id) (ih (max a r.id))

/-- Auxiliary bound: a fold of max dominates every id of the list. -/
theorem mem_le_foldlMax (l : List RunRow) (a : Int) :
    ∀ r ∈ l, r.id ≤ l.foldl (fun acc row => max acc row.id) a := by
  induction l generalizing a with
  | nil => intro r hr; cases hr
  | cons s rs ih =>
      intro r hr
      rw [List.foldl_cons]
      rcases List.mem_cons.mp hr with h | h
      · rw [h]
        exact le_trans (le_max_right a s.id) (le_foldlMax rs (max a s.id))
      · exact ih (max a s.id) r h

/-- Auxiliary bound: idsMax is an upper bound of the ids of a list. -/
theorem idsMax_is_ub : ∀ (l : List RunRow), ∀ r ∈ l, r.id ≤ idsMax l
  | [] => by intro r hr; cases hr
  | s :: rest => by
      intro r hr
      unfold idsMax
      rcases List.mem_cons.mp hr with h | h
      · rw [h]
        exact le_foldlMax rest s.id
      · exact mem_le_foldlMax rest s.id r h

/-- Support for C3: on a nonempty batch the returned watermark is the
pandas max of the id column, an upper bound of every id in the batch. -/
theorem fetch_body_nonempty_watermark (db : RunsDb) (w nw : Int)
    (batch : List RunRow) (hb : fetch_live_data_body db w = (batch, nw))
    (h : batch ≠ []) :
    nw = idsMax batch ∧ ∀ r ∈ batch, r.id ≤ nw := by
  unfold fetch_live_data_body at hb
  simp only at hb
  injection hb with hb1 hb2
  rw [hb1] at hb2
  have hfalse : batch.isEmpty = false := by
    cases batch with
    | nil => exact absurd rfl h
    | cons a l => rfl
  rw [hfalse] at hb2
  simp only [Bool.false_eq_true, if_false] at hb2
  constructor
  · exact hb2.symm
  · intro r hr
    rw [← hb2]
    exact idsMax_is_ub batch r hr

/-- Cache entry of the st.cache_data memoizer wrapped around
fetch_live_data: argument key, cached return value and storage time in
seconds. -/
structure CacheEntry where
  key : Int
  value : List RunRow × Int
  storedAt : Nat
deriving DecidableEq

/-- Lookup in the st.cache_data store: an entry is served while it is
younger than the ttl of 300 seconds given at main.py line 62. -/
def cacheLookup (cache : List CacheEntry) (now : Nat) (key : Int) :
    Option (List RunRow × Int) :=
  (cache.find? (fun e => e.key == key && decide (now - e.storedAt < 300))).map
    (fun e => e.value)

/-- Embedding of the st.cache_data(ttl=300) wrapper around
fetch_live_data: a fresh cached value for the same argument is returned
without running the body; otherwise the body runs and only a returned
value is stored (streamlit does not cache a raised exception, which
propagates to the caller). -/
def cachedFetchLiveData (cache : List CacheEntry) (now : Nat)
    (dbs : FileSystemDbs) (last_index : Int) :
    Except PyErr (List RunRow × Int) × List CacheEntry :=
  match cacheLookup cache now last_index with
  | some v => (Except.ok v, cache)
  | none =>
      match fetch_live_data dbs last_index with
      | (Except.ok v, _) => (Except.ok v, ⟨last_index, v, now⟩ :: cache)
      | (Except.error e, _) => (Except.error e, cache)

/-- C4: evaluation at the failing input.  Starting from an empty cache, a
call with watermark 0 at time 0 raises the NameError and stores nothing;
a later call at time 301 (after the claimed 300-second window) against a
table that now holds three new rows raises the same NameError instead of
observing the new rows.  No result is ever produced or cached, so the
claimed caching behavior never takes place. -/
theorem cached_fetch_never_caches :
    cachedFetchLiveData [] 0 dbsEmptyRuns 0 =
      (Except.error (PyErr.nameError "DB_PATH"), []) ∧
    cachedFetchLiveData [] 301 dbsWithPending 0 =
      (Except.error (PyErr.nameError "DB_PATH"), []) :=
  ⟨rfl, rfl⟩

/-- Column store of a pandas DataFrame: named columns of integer cells
(the only cell values any property below inspects). -/
structure DataFrame where
  cols : List (String × List Int)
deriving DecidableEq

/-- Column lookup, as indexing a pandas DataFrame by column name. -/
def lookupCol : List (String × List Int) → String → Option (List Int)
  | [], _ => none
  | (n, col) :: rest, name => if n = name then some col else lookupCol rest name

/-- Named-column access on a DataFrame. -/
def DataFrame.getCol (df : DataFrame) (name : String) : Option (List Int) :=
  lookupCol df.cols name

/-- Chart produced by one of the four plotting calls of create_plot,
recording which columns each call references and the data it takes. -/
inductive PlotFig where
  | scatter (x y color : String) (hover_data : List String)
      (xData yData colorData : List Int)
  | line (x y line_group color : String) (xData yData : List Int)
  | surface (z : List (List Int))
  | histogram (x : String) (nbins : Nat) (values : List Int)
deriving DecidableEq

/-- Figure after the final fig.update_layout call of create_plot. -/
structure Figure where
  fig : PlotFig
  template : String
  hovermode : String
deriving DecidableEq

/-- Rows of the value matrix data[[voltage, current, temperature]].values
handed to go.Surface: one three-entry row per sample. -/
def zip3rows : List Int → List Int → List Int → List (List Int)
  | a :: as, b :: bs, c :: cs => [a, b, c] :: zip3rows as bs cs
  | _, _, _ => []

/-- Application of fig.update_layout(template=plotly_dark,
hovermode=x unified, ...) at main.py lines 130 to 134. -/
def update_layout (f : PlotFig) : Figure :=
  ⟨f, "plotly_dark", "x unified"⟩

/-- Embedding of create_plot (main.py lines 111 to 135).  Each branch
mirrors one plotting call, failing when a referenced column is absent from
the DataFrame (as the pandas and plotly calls would).  When the selector
matches none of the four branch labels, the local variable fig is never
bound and the final fig.update_layout raises UnboundLocalError. -/
def create_plot (data : DataFrame) (plot_type : String) :
    Except PyErr Figure :=
  if plot_type = "散點圖" then
    match data.getCol "voltage", data.getCol "current",
        data.getCol "temperature", data.getCol "frequency" with
    | some xs, some ys, some cs, some _ =>
        Except.ok (update_layout
          (PlotFig.scatter "voltage" "current" "temperature" ["frequency"]
            xs ys cs))
    | _, _, _, _ => Except.error (PyErr.valueError "px.scatter: missing column")
  else if plot_type = "線圖" then
    match data.getCol "time", data.getCol "current",
        data.getCol "id", data.getCol "parameters" with
    | some xs, some ys, some _, some _ =>
        Except.ok (update_layout
          (PlotFig.line "time" "current" "id" "parameters" xs ys))
    | _, _, _, _ => Except.error (PyErr.valueError "px.line: missing column")
  else if plot_type = "表面圖" then
    match data.getCol "voltage", data.getCol "current",
        data.getCol "temperature" with
    | some vs, some cs, some ts =>
        Except.ok (update_layout (PlotFig.surface (zip3rows vs cs ts)))
    | _, _, _ => Except.error (PyErr.keyError "voltage")
  else if plot_type = "直方圖" then
    match data.getCol "current" with
    | some vs => Except.ok (update_layout (PlotFig.histogram "current" 50 vs))
    | none => Except.error (PyErr.valueError "px.histogram: missing column")
  else
    Except.error (PyErr.unboundLocalError "fig")

/-- C6: when the selector matches none of the four known kinds, no chart
object is returned: the call fails on the undefined local variable fig
(the branch chain binds fig in no branch and the final fig.update_layout
then raises), for every input DataFrame. -/
theorem create_plot_unknown_kind_no_chart (data : DataFrame)
    (plot_type : String)
    (h1 : plot_type ≠ "散點圖") (h2 : plot_type ≠ "線圖")
    (h3 : plot_type ≠ "表面圖") (h4 : plot_type ≠ "直方圖") :
    create_plot data plot_type =
      Except.error (PyErr.unboundLocalError "fig") := by
  unfold create_plot
  rw [if_neg h1, if_neg h2, if_neg h3, if_neg h4]

/-- Witness for C6 at the concrete selector value pie and an empty
DataFrame. -/
theorem create_plot_unknown_kind_no_chart_witness :
    create_plot ⟨[]⟩ "pie" = Except.error (PyErr.unboundLocalError "fig") :=
  create_plot_unknown_kind_no_chart ⟨[]⟩ "pie"
    (by decide) (by decide) (by decide) (by decide)

/-- Index of the equal-width bin that receives value v, for nbins bins
spanning the closed range from lo to hi (the plotly binning of
px.histogram, whose nbins argument caps the number of bins). -/
def binIdx (lo hi : Int) (nbins : Nat) (v : Int) : Nat :=
  if hi = lo then 0
  else min ((v - lo).toNat * nbins / ((hi - lo).toNat + 1)) (nbins - 1)

/-- Counts per bin of the px.histogram binning: one count for each of the
at most nbins equal-width bins over the data range. -/
def hist_bins (nbins : Nat) (values : List Int) : List Nat :=
  match values with
  | [] => []
  | v :: rest =>
      let lo := rest.foldl min v
      let hi := rest.foldl max v
      (List.range nbins).map
        (fun i => (values.filter (fun x => binIdx lo hi nbins x = i)).length)

/-- Bucket counts of a figure: the histogram bins for a histogram figure,
empty for the other chart kinds. -/
def figure_bins (f : Figure) : List Nat :=
  match f.fig with
  | PlotFig.histogram _ nbins values => hist_bins nbins values
  | _ => []

/-- Column names a figure uses positionally (x then y axes). -/
def positional_cols (f : Figure) : List String :=
  match f.fig with
  | PlotFig.scatter x y _ _ _ _ _ => [x, y]
  | PlotFig.line x y _ _ _ _ => [x, y]
  | PlotFig.surface _ => []
  | PlotFig.histogram x _ _ => [x]

/-- Column names a figure uses for color. -/
def color_cols (f : Figure) : List String :=
  match f.fig with
  | PlotFig.scatter _ _ c _ _ _ _ => [c]
  | PlotFig.line _ _ _ c _ _ => [c]
  | PlotFig.surface _ => []
  | PlotFig.histogram _ _ _ => []

/-- Auxiliary bound: the binning never produces more than nbins buckets. -/
theorem hist_bins_length_le (nbins : Nat) (values : List Int) :
    (hist_bins nbins values).length ≤ nbins := by
  cases values with
  | nil => simp [hist_bins]
  | cons v rest => simp [hist_bins]

/-- C7: on any DataFrame carrying the referenced columns, the histogram
branch of create_plot (nbins=50 over the current column, here of 1000
values) produces a chart whose bin list has at most 50 buckets, and the
scatter branch produces a chart referencing exactly the two positional
columns voltage and current plus the single color column temperature. -/
theorem create_plot_histogram_scatter_spec (data : DataFrame)
    (cur vol temp freq : List Int)
    (hcur : data.getCol "current" = some cur) (hlen : cur.length = 1000)
    (hvol : data.getCol "voltage" = some vol)
    (htemp : data.getCol "temperature" = some temp)
    (hfreq : data.getCol "frequency" = some freq) :
    (∃ f, create_plot data "直方圖" = Except.ok f ∧
      (figure_bins f).length ≤ 50) ∧
    (∃ f, create_plot data "散點圖" = Except.ok f ∧
      positional_cols f = ["voltage", "current"] ∧
      color_cols f = ["temperature"]) := by
  constructor
  · refine ⟨update_layout (PlotFig.histogram "current" 50 cur), ?_, ?_⟩
    · unfold create_plot
      rw [if_neg (by decide), if_neg (by decide), if_neg (by decide),
        if_pos rfl, hcur]
    · simpa [figure_bins, update_layout] using hist_bins_length_le 50 cur
  · refine ⟨update_layout
      (PlotFig.scatter "voltage" "current" "temperature" ["frequency"]
        vol cur temp), ?_, rfl, rfl⟩
    unfold create_plot
    rw [if_pos rfl, hvol, hcur, htemp, hfreq]

/-- Concrete wide DataFrame for the C7 witness: four columns of 1000
cells each. -/
def sampleWideFrame : DataFrame :=
  ⟨[("voltage", List.replicate 1000 0), ("current", List.replicate 1000 0),
    ("temperature", List.replicate 1000 0),
    ("frequency", List.replicate 1000 0)]⟩

/-- Witness for C7 at the concrete DataFrame of four 1000-value columns. -/
theorem create_plot_histogram_scatter_spec_witness :
    (∃ f, create_plot sampleWideFrame "直方圖" = Except.ok f ∧
      (figure_bins f).length ≤ 50) ∧
    (∃ f, create_plot sampleWideFrame "散點圖" = Except.ok f ∧
      positional_cols f = ["voltage", "current"] ∧
      color_cols f = ["temperature"]) :=
  create_plot_histogram_scatter_spec sampleWideFrame
    (List.replicate 1000 0) (List.replicate 1000 0) (List.replicate 1000 0)
    (List.replicate 1000 0) rfl (List.length_replicate 1000 0) rfl rfl rfl

/-- Split on commas as the Python str.split of main.py line 216 works: n
commas yield n+1 parts, empty parts kept, so the empty string yields the
one-element list holding the empty string. -/
def splitCommaAux : List Char → String → List String
  | [], acc => [acc]
  | c :: cs, acc =>
      if c = ',' then acc :: splitCommaAux cs "" else splitCommaAux cs (acc.push c)

/-- Python comma split of a whole string. -/
def splitComma (s : String) : List String :=
  splitCommaAux s.data ""

/-- Dataset object returned by the QCoDeS load_by_id lookup, exposing the
flattened sample table (to_pandas_dataframe().reset_index()) and the
comma-separated parameter-name string. -/
structure QcdDataSet where
  dataframe : DataFrame
  parameters : String
deriving DecidableEq

/-- Experiment store behind load_by_id: run identifiers mapped to
datasets. -/
def QcdDatabase : Type := List (Int × QcdDataSet)

/-- Run lookup by identifier in the experiment store. -/
def lookupRun : List (Int × QcdDataSet) → Int → Option QcdDataSet
  | [], _ => none
  | (k, d) :: rest, run_id =>
      if k = run_id then some d else lookupRun rest run_id

/-- Embedding of qcodes load_by_id: the dataset of the run, or the
ValueError qcodes raises when no run with that identifier exists. -/
def load_by_id (db : QcdDatabase) (run_id : Int) : Except PyErr QcdDataSet :=
  match lookupRun db run_id with
  | some d => Except.ok d
  | none => Except.error (PyErr.valueError "run does not exist in the database")

/-- Streamlit session state of qcodes_integration: the df and parameters
keys it stores (main.py lines 217 to 218). -/
structure SessionState where
  df : Option DataFrame
  parameters : Option (List String)
deriving DecidableEq

/-- Outcome of one run of the load handler, as the user sees it:
normal completion, an error message rendered by an st.error call, or an
exception that escapes the handler uncaught. -/
inductive LoadOutcome where
  | ok
  | shownError (msg : String)
  | uncaught (e : PyErr)
deriving DecidableEq

/-- Whether the outcome is an error message rendered to the user.  The
active qcodes_integration (main.py line 208) never produces one: its only
st.error call sits in the dead first variant of the function. -/
def isShownMessage : LoadOutcome → Bool
  | LoadOutcome.shownError _ => true
  | _ => false

/-- Embedding of the load branch of the active qcodes_integration
(main.py lines 213 to 218): load the dataset, flatten it, split the
parameter string and store both in session state.  The body has no
try/except, so a failing load_by_id escapes uncaught and the state
assignments never run. -/
def load_experiment_action (db : QcdDatabase) (run_id : Int)
    (st : SessionState) : SessionState × LoadOutcome :=
  match load_by_id db run_id with
  | Except.error e => (st, LoadOutcome.uncaught e)
  | Except.ok d =>
      ({ st with
          df := some d.dataframe,
          parameters := some (splitComma d.parameters) },
       LoadOutcome.ok)

/-- Prior session state holding an earlier table and parameter list. -/
def priorState : SessionState :=
  ⟨some ⟨[("prev", [9])]⟩, some ["prev"]⟩

/-- C5 counterexample: loading run id 1 from an experiment store holding
no run with id 1 leaves the prior session state untouched, but the
outcome is the uncaught qcodes ValueError, not an error message shown to
the user (no st.error runs in the active qcodes_integration). -/
theorem qcodes_load_missing_run_no_message :
    load_experiment_action [] 1 priorState =
      (priorState,
       LoadOutcome.uncaught
         (PyErr.valueError "run does not exist in the database")) ∧
    isShownMessage (load_experiment_action [] 1 priorState).2 = false :=
  ⟨rfl, rfl⟩

/-- C5 amended: loading a run identifier absent from the experiment store
raises the not-found ValueError uncaught out of the handler (no
user-facing message is produced by the code), and the prior session state
is left unmodified. -/
theorem qcodes_load_missing_run_uncaught (db : QcdDatabase) (run_id : Int)
    (st : SessionState) (h : lookupRun db run_id = none) :
    load_experiment_action db run_id st =
      (st, LoadOutcome.uncaught
        (PyErr.valueError "run does not exist in the database")) := by
  unfold load_experiment_action load_by_id
  rw [h]

/-- Witness for the amended C5 at run id 2 over the empty store. -/
theorem qcodes_load_missing_run_uncaught_witness :
    load_experiment_action [] 2 ⟨none, none⟩ =
      (⟨none, none⟩,
       LoadOutcome.uncaught
         (PyErr.valueError "run does not exist in the database")) :=
  qcodes_load_missing_run_uncaught [] 2 ⟨none, none⟩ rfl

/-- Axis choices the sidebar selectboxes offer after a load: the stored
parameter list (main.py lines 229 to 231). -/
def axis_choices (st : SessionState) : List String :=
  st.parameters.getD []

/-- Dataset whose parameter string is empty, the malformed case of C10. -/
def emptyParamDataSet : QcdDataSet :=
  ⟨⟨[("index", [0, 1])]⟩, ""⟩

/-- C10 counterexample: loading a run whose comma-separated parameter
string is empty completes normally, stores the table and the one-element
parameter list holding the empty string, and offers that list as axis
choices; no failure of any kind is raised (the code has no check on the
parameter list). -/
theorem empty_parameters_silently_stored :
    load_experiment_action [(1, emptyParamDataSet)] 1 ⟨none, none⟩ =
      (⟨some emptyParamDataSet.dataframe, some [""]⟩, LoadOutcome.ok) ∧
    axis_choices (load_experiment_action [(1, emptyParamDataSet)] 1
      ⟨none, none⟩).1 = [""] :=
  ⟨rfl, rfl⟩

/-- C10 amended: a loaded dataset with an empty parameter string is split
into the one-element list holding the empty string, which is silently
stored in session state and offered as the axis choices; the loader
proceeds with outcome ok and no no-parameters-available condition exists
in the code. -/
theorem empty_parameters_split_stored (db : QcdDatabase) (run_id : Int)
    (st : SessionState) (d : QcdDataSet)
    (h : lookupRun db run_id = some d) (hp : d.parameters = "") :
    load_experiment_action db run_id st =
      ({ st with df := some d.dataframe, parameters := some [""] },
       LoadOutcome.ok) := by
  unfold load_experiment_action load_by_id
  rw [h]
  show ((⟨some d.dataframe, some (splitComma d.parameters)⟩ : SessionState),
      LoadOutcome.ok) = _
  rw [hp]
  rfl

/-- Witness for the amended C10 at a concrete one-run store. -/
theorem empty_parameters_split_stored_witness :
    load_experiment_action [(3, emptyParamDataSet)] 3 priorState =
      ({ priorState with
          df := some emptyParamDataSet.dataframe,
          parameters := some [""] },
       LoadOutcome.ok) :=
  empty_parameters_split_stored [(3, emptyParamDataSet)] 3 priorState
    emptyParamDataSet rfl rfl

/-- Line chart built by px.line(df, x=x_param, y=y_param, ...) in the
chart branch of qcodes_integration (main.py line 234): the axis column
names and the column data the figure takes from the DataFrame. -/
structure LineChart where
  x : String
  y : String
  xData : List Int
  yData : List Int
deriving DecidableEq

/-- Embedding of the px.line call: the figure carries the two selected
columns verbatim, and the call fails when a selected column is absent. -/
def px_line (df : DataFrame) (x_param y_param : String) :
    Except PyErr LineChart :=
  match df.getCol x_param, df.getCol y_param with
  | some xs, some ys => Except.ok ⟨x_param, y_param, xs, ys⟩
  | _, _ => Except.error (PyErr.valueError "px.line: column not found")

/-- Embedding of the line-chart branch of qcodes_integration (main.py
lines 229 to 235): with truthy (nonempty) selections the px.line figure
is built and rendered, otherwise nothing is drawn. -/
def line_chart_branch (df : DataFrame) (x_param y_param : String) :
    Except PyErr (Option LineChart) :=
  if x_param ≠ "" ∧ y_param ≠ "" then
    match px_line df x_param y_param with
    | Except.ok fig => Except.ok (some fig)
    | Except.error e => Except.error e
  else Except.ok none

/-- C8: selecting X=voltage and Y=current on a loaded table carrying those
columns yields a line chart whose x data and y data are exactly the
voltage and current columns of the table: the values in the table come
back out of the chart unchanged. -/
theorem line_chart_round_trip (df : DataFrame) (vs cs : List Int)
    (hv : df.getCol "voltage" = some vs)
    (hc : df.getCol "current" = some cs) :
    line_chart_branch df "voltage" "current" =
      Except.ok (some ⟨"voltage", "current", vs, cs⟩) := by
  unfold line_chart_branch px_line
  rw [if_pos ⟨by decide, by decide⟩, hv, hc]

/-- Concrete table for the C8 witness. -/
def voltageCurrentFrame : DataFrame :=
  ⟨[("voltage", [1, 2, 3]), ("current", [10, 20, 30])]⟩

/-- Witness for C8 at a concrete three-row table. -/
theorem line_chart_round_trip_witness :
    line_chart_branch voltageCurrentFrame "voltage" "current" =
      Except.ok (some ⟨"voltage", "current", [1, 2, 3], [10, 20, 30]⟩) :=
  line_chart_round_trip voltageCurrentFrame [1, 2, 3] [10, 20, 30] rfl rfl

/-- SQLite table: its name and its column names in declaration order. -/
structure SqliteTable where
  name : String
  columns : List String
deriving DecidableEq

/-- SQLite database file: the tables it holds. -/
structure SqliteFile where
  tables : List SqliteTable
deriving DecidableEq

/-- Filesystem of SQLite files addressed by path, for the schema
initializer. -/
def SqlFileSystem : Type := List (String × SqliteFile)

/-- File lookup by path. -/
def lookupFile : List (String × SqliteFile) → String → Option SqliteFile
  | [], _ => none
  | (p, g) :: rest, path =>
      if p = path then some g else lookupFile rest path

/-- Store a file at a path, replacing any file already there. -/
def saveFile : List (String × SqliteFile) → String → SqliteFile →
    List (String × SqliteFile)
  | [], path, f => [(path, f)]
  | (p, g) :: rest, path, f =>
      if p = path then (path, f) :: rest else (p, g) :: saveFile rest path f

/-- Whether the file holds a table of the given name (any schema). -/
def hasTable (f : SqliteFile) (tname : String) : Bool :=
  f.tables.any (fun t => t.name = tname)

/-- Execution of a CREATE TABLE statement on one file: with IF NOT EXISTS
the statement is a no-op whenever a table of that name exists, whatever
its columns; without it SQLite raises an error in that case. -/
def execCreateTable (ifNotExists : Bool) (tname : String)
    (columns : List String) (f : SqliteFile) : Except PyErr SqliteFile :=
  if hasTable f tname then
    if ifNotExists then Except.ok f
    else Except.error (PyErr.valueError "table already exists")
  else Except.ok ⟨f.tables ++ [⟨tname, columns⟩]⟩

/-- Columns of the CREATE TABLE statement at main.py lines 54 to 58. -/
def runsColumns : List String := ["id", "timestamp", "parameters", "data"]

/-- Embedding of sqlite3.connect: opening a path yields the file there,
creating an empty database file first when the path has none. -/
def sqlite3_connect (fs : SqlFileSystem) (path : String) :
    SqliteFile × SqlFileSystem :=
  match lookupFile fs path with
  | some f => (f, fs)
  | none => (⟨[]⟩, saveFile fs path ⟨[]⟩)

/-- Embedding of init_database (main.py lines 47 to 60): connect to the
file at QCODES_DB_PATH, run CREATE TABLE IF NOT EXISTS runs with the four
columns, commit and close. -/
def init_database (fs : SqlFileSystem) : Except PyErr SqlFileSystem :=
  let cf := sqlite3_connect fs QCODES_DB_PATH
  match execCreateTable true "runs" runsColumns cf.1 with
  | Except.ok f2 => Except.ok (saveFile cf.2 QCODES_DB_PATH f2)
  | Except.error e => Except.error e

/-- Auxiliary: looking up the path just written finds the written file. -/
theorem lookup_saveFile (fs : List (String × SqliteFile)) (path : String)
    (f : SqliteFile) : lookupFile (saveFile fs path f) path = some f := by
  induction fs with
  | nil => simp [saveFile, lookupFile]
  | cons hd rest ih =>
      obtain ⟨p, g⟩ := hd
      by_cases h : p = path
      · simp [saveFile, h, lookupFile]
      · simp [saveFile, h, lookupFile, ih]

/-- Auxiliary: writing back the very file found at a path leaves the
filesystem unchanged. -/
theorem saveFile_id (fs : List (String × SqliteFile)) (path : String)
    (f : SqliteFile) (h : lookupFile fs path = some f) :
    saveFile fs path f = fs := by
  induction fs with
  | nil => simp [lookupFile] at h
  | cons hd rest ih =>
      obtain ⟨p, g⟩ := hd
      by_cases hp : p = path
      · subst hp
        simp [lookupFile] at h
        simp [saveFile, h]
      · simp [lookupFile, hp] at h
        simp [saveFile, hp, ih h]

/-- Auxiliary: appending a runs table makes hasTable find runs. -/
theorem hasTable_append_runs (ts : List SqliteTable) (cols : List String) :
    hasTable ⟨ts ++ [⟨"runs", cols⟩]⟩ "runs" = true := by
  simp [hasTable]

/-- Auxiliary: on a filesystem whose file at the configured path already
holds a table named runs, init_database succeeds and changes nothing. -/
theorem init_database_noop (fs : SqlFileSystem) (f : SqliteFile)
    (hl : lookupFile fs QCODES_DB_PATH = some f)
    (hr : hasTable f "runs" = true) :
    init_database fs = Except.ok fs := by
  unfold init_database sqlite3_connect execCreateTable
  rw [hl]
  simp [hr, saveFile_id fs QCODES_DB_PATH f hl]

/-- File carrying a runs table with the qcodes schema, not the four
columns of the CREATE TABLE statement. -/
def qcodesSchemaFile : SqliteFile :=
  ⟨[⟨"runs", ["run_id", "exp_id", "name", "result_table_name"]⟩]⟩

/-- Filesystem whose database file at the configured path already holds
that foreign runs table. -/
def fsPreexisting : SqlFileSystem := [(QCODES_DB_PATH, qcodesSchemaFile)]

/-- C9 counterexample: on a database file whose runs table has the
qcodes columns, init_database returns with the filesystem unchanged, so
the runs table still has those columns and not the four columns
(id, timestamp, parameters, data) the claim says are ensured: CREATE
TABLE IF NOT EXISTS is a no-op for a pre-existing table of any schema. -/
theorem init_database_preexisting_schema_kept :
    init_database fsPreexisting = Except.ok fsPreexisting ∧
    (lookupFile fsPreexisting QCODES_DB_PATH).map
        (fun f => f.tables.map (fun t => t.columns)) =
      some [["run_id", "exp_id", "name", "result_table_name"]] ∧
    decide (["run_id", "exp_id", "name", "result_table_name"] =
      runsColumns) = false :=
  ⟨init_database_noop fsPreexisting qcodesSchemaFile rfl rfl, rfl, rfl⟩

/-- C9 amended: init_database always succeeds without error; afterwards a
table named runs exists in the file at the target path; the operation is
idempotent; when the file was absent it is created, holding exactly the
runs table with columns (id, timestamp, parameters, data); and when the
file already held a table named runs (whatever its columns) the
filesystem is left completely unchanged. -/
theorem init_database_amended (fs : SqlFileSystem) :
    ∃ fs2, init_database fs = Except.ok fs2 ∧
      (∃ f, lookupFile fs2 QCODES_DB_PATH = some f ∧
        hasTable f "runs" = true) ∧
      init_database fs2 = Except.ok fs2 ∧
      (lookupFile fs QCODES_DB_PATH = none →
        lookupFile fs2 QCODES_DB_PATH = some ⟨[⟨"runs", runsColumns⟩]⟩) ∧
      (∀ g, lookupFile fs QCODES_DB_PATH = some g →
        hasTable g "runs" = true → fs2 = fs) := by
  cases hl : lookupFile fs QCODES_DB_PATH with
  | none =>
      refine ⟨saveFile (saveFile fs QCODES_DB_PATH ⟨[]⟩) QCODES_DB_PATH
        ⟨[⟨"runs", runsColumns⟩]⟩, ?_, ?_, ?_, ?_, ?_⟩
      · unfold init_database sqlite3_connect execCreateTable
        rw [hl]
        rfl
      · exact ⟨⟨[⟨"runs", runsColumns⟩]⟩, lookup_saveFile _ _ _, by decide⟩
      · exact init_database_noop _ _ (lookup_saveFile _ _ _) (by decide)
      · intro _
        exact lookup_saveFile _ _ _
      · intro g hg _
        simp at hg
  | some f =>
      cases hr : hasTable f "runs" with
      | true =>
          refine ⟨fs, init_database_noop fs f hl hr, ⟨f, hl, hr⟩,
            init_database_noop fs f hl hr, ?_, fun _ _ _ => rfl⟩
          intro h
          simp at h
      | false =>
          refine ⟨saveFile fs QCODES_DB_PATH
            ⟨f.tables ++ [⟨"runs", runsColumns⟩]⟩, ?_, ?_, ?_, ?_, ?_⟩
          · unfold init_database sqlite3_connect execCreateTable
            rw [hl]
            simp [hr]
          · exact ⟨⟨f.tables ++ [⟨"runs", runsColumns⟩]⟩, lookup_saveFile _ _ _,
              hasTable_append_runs f.tables runsColumns⟩
          · exact init_database_noop _ _ (lookup_saveFile _ _ _)
              (hasTable_append_runs f.tables runsColumns)
          · intro h
            simp at h
          · intro g hg hrg
            injection hg with hgf
            rw [← hgf, hr] at hrg
            simp at hrg

/-- Witness for the amended C9 at the empty filesystem (the file absent
case, where the file gets created with the four-column runs table). -/
theorem init_database_amended_witness :
    ∃ fs2, init_database ([] : SqlFileSystem) = Except.ok fs2 ∧
      (∃ f, lookupFile fs2 QCODES_DB_PATH = some f ∧
        hasTable f "runs" = true) ∧
      init_database fs2 = Except.ok fs2 ∧
      (lookupFile ([] : SqlFileSystem) QCODES_DB_PATH = none →
        lookupFile fs2 QCODES_DB_PATH = some ⟨[⟨"runs", runsColumns⟩]⟩) ∧
      (∀ g, lookupFile ([] : SqlFileSystem) QCODES_DB_PATH = some g →
        hasTable g "runs" = true → fs2 = []) :=
  init_database_amended []
